import Mathlib

/-!
Verification development for the HIT-137 tkinter AI GUI repository.

The repository is a thin desktop front-end over two pretrained pipelines:
an adapter layer (`core/adapters.py` with decorators in `core/decorators.py`
and mixins in `core/mixins.py`, shipped here under `gui/`) and a presentation
layer (`gui/views.py`).

The embedding is a shallow one:

* Exceptions become `Except Err` values; the Python exception classes
  `ValueError` (raised by `requires_input`), `FileNotFoundError` (raised by
  `ValidationMixin.ensure_file_exists`) and opaque library failures map to
  the constructors of `Err`.
* Side effects (logging, pipeline construction, pipeline invocation, file
  system probes) become an explicit event trace `List Event`.
* The opaque Hugging Face `pipeline` callable is a parameter (`pipeOut`):
  theorems quantify over it, so they hold for every behaviour of the
  underlying model.  The file system is likewise a parameter `fs : String →
  Bool` standing for `os.path.exists`.
* Wall-clock time is not modelled: the elapsed-seconds text interpolated
  into log lines is an opaque `String` parameter.
* Python float literals (the temperature default `0.8`) are modelled as
  exact rationals.
* tkinter widgets are modelled by their observable content: an `AppState`
  record holds the variables and widget texts the handlers read and write,
  and modal dialogs become a `List Dialog` output.
-/

namespace HIT137

/-- Exceptions that the adapter layer can raise.  `invalidInput` stands for
the `ValueError`s of `requires_input`, `fileNotFound` for the
`FileNotFoundError` of `ensure_file_exists`, and `pipelineError` for any
opaque exception escaping the underlying pipeline call. -/
inductive Err where
  | invalidInput (msg : String)
  | fileNotFound (msg : String)
  | pipelineError (msg : String)
  deriving Repr, DecidableEq

/-- Observable side effects of the adapter layer, in order of occurrence. -/
inductive Event where
  /-- A line printed by `LoggingMixin.log` (already prefixed). -/
  | logLine (msg : String)
  /-- Construction of the underlying Hugging Face pipeline:
  `pipeline(task, model=...)` inside `load`. -/
  | loadPipe (task model : String)
  /-- Invocation of the text-generation pipeline with its keyword options. -/
  | pipeCallText (prompt : String) (max_new_tokens : Nat) (do_sample : Bool)
      (temperature : Rat)
  /-- Invocation of the image-to-text pipeline with its keyword options. -/
  | pipeCallImage (image_path : String) (max_new_tokens : Nat)
  /-- A probe of the file system: `os.path.exists(path)`. -/
  | fsExistsCheck (path : String)
  deriving Repr, DecidableEq

/-- The argument actually passed for the first parameter after `self` of a
decorated `run`: not passed at all, passed as Python `None`, or a string. -/
inductive PyArg where
  | missing
  | noneVal
  | strVal (s : String)
  deriving Repr, DecidableEq

/-- A Python dict as used in pipeline result records: string keys to string
values is enough for the `generated_text` access the GUI performs. -/
abbrev PyDict := List (String × String)

/-- Python `d.get(key, dflt)` on a dict. -/
def dict_get (d : PyDict) (key dflt : String) : String :=
  match d.find? (fun kv => kv.1 == key) with
  | some kv => kv.2
  | none => dflt

/-- A pipeline result as the GUI sees it: either a Python list of records,
or any other value carried together with its `str()` rendering. -/
inductive PyVal where
  | vlist (records : List PyDict)
  | vother (rendering : String)
  deriving Repr, DecidableEq

/-- Approximate model of Python `str()` on a result record.  No claim
depends on the exact rendering; it only matters that the fallback branch of
the GUI displays `str(out)` and nothing else. -/
def pyStrDict (d : PyDict) : String :=
  "\x7b" ++ String.intercalate ", " (d.map fun kv => kv.1 ++ ": " ++ kv.2) ++ "\x7d"

/-- Approximate model of Python `str()` on a pipeline result. -/
def pyStr : PyVal → String
  | PyVal.vlist rs =>
      "[" ++ String.intercalate ", " (rs.map pyStrDict) ++ "]"
  | PyVal.vother s => s

/-- Python `str.strip()`: drop leading and trailing whitespace (ASCII
whitespace suffices for the inputs this program handles). -/
def pyStrip (s : String) : String :=
  String.mk
    (((s.data.dropWhile Char.isWhitespace).reverse.dropWhile
        Char.isWhitespace).reverse)

/-- Model of `core/mixins.py`, `LoggingMixin.log`: prints
`[log] ClassName: msg`. -/
def log_line (cls msg : String) : Event :=
  Event.logLine ("[log] " ++ cls ++ ": " ++ msg)

/-- Model of `core/mixins.py`, `ValidationMixin.ensure_file_exists`: probes
`os.path.exists(path)` and raises `FileNotFoundError` when absent. -/
def ensure_file_exists (fs : String → Bool) (path : String) :
    Except Err Unit × List Event :=
  if fs path then (Except.ok (), [Event.fsExistsCheck path])
  else
    (Except.error (Err.fileNotFound ("File not found: " ++ path)),
     [Event.fsExistsCheck path])

/-- Model of `core/decorators.py`, `timed`: runs the wrapped call, and if it returned
normally appends the best-effort timing log line (via `self.log`), returning
the wrapped call's result unchanged.  When the wrapped call raises, the
exception propagates before the logging statement is reached.  `elapsed` is
the opaque formatted wall-clock seconds text. -/
def timed {β : Type} (cls fnName elapsed : String)
    (r : Except Err β × List Event) : Except Err β × List Event :=
  match r with
  | (Except.error e, evs) => (Except.error e, evs)
  | (Except.ok b, evs) =>
      (Except.ok b,
       evs ++ [log_line cls (fnName ++ "() finished in " ++ elapsed ++ "s")])

/-- Model of `core/decorators.py`, `requires_input`: guards the first argument after
`self`.  Raises `ValueError("Input required")` when no argument is passed,
`ValueError("Input cannot be None")` on `None`, and
`ValueError("Input string cannot be empty")` on a string that is empty after
`strip()`; otherwise invokes the wrapped function. -/
def requires_input {β : Type} (val : PyArg)
    (body : String → Except Err β × List Event) :
    Except Err β × List Event :=
  match val with
  | PyArg.missing => (Except.error (Err.invalidInput "Input required"), [])
  | PyArg.noneVal =>
      (Except.error (Err.invalidInput "Input cannot be None"), [])
  | PyArg.strVal s =>
      if pyStrip s == "" then
        (Except.error (Err.invalidInput "Input string cannot be empty"), [])
      else body s

/-- The lazily created handle stored in `self.pipe`: the task kind and model
identifier the `pipeline(...)` factory was called with. -/
structure Pipeline where
  task : String
  model : String
  deriving Repr, DecidableEq

/-- Model of `core/adapters.py`, `GPT2TextAdapter`: model name, optional device, and
the lazily initialised pipeline handle (`None` until `load`). -/
structure GPT2TextAdapter where
  model_name : String
  device : Option String
  pipe : Option Pipeline
  deriving Repr, DecidableEq

/-- Model of `GPT2TextAdapter.__init__` (via `BaseAdapter.__init__`): stores the
model name and device and leaves `pipe` unset. -/
def GPT2TextAdapter.init (model_name : String) (device : Option String) :
    GPT2TextAdapter :=
  { model_name := model_name, device := device, pipe := none }

/-- Undecorated body of `GPT2TextAdapter.load`: logs, constructs the
text-generation pipeline, stores the handle, returns `self`. -/
def GPT2TextAdapter.load_body (a : GPT2TextAdapter) :
    Except Err GPT2TextAdapter × List Event :=
  (Except.ok { a with pipe := some ⟨"text-generation", a.model_name⟩ },
   [log_line "GPT2TextAdapter"
      ("Loading text-generation pipeline: " ++ a.model_name),
    Event.loadPipe "text-generation" a.model_name])

/-- Model of `GPT2TextAdapter.load` as decorated in the source: `@timed` over the
body. -/
def GPT2TextAdapter.load (elapsed : String) (a : GPT2TextAdapter) :
    Except Err GPT2TextAdapter × List Event :=
  timed "GPT2TextAdapter" "load" elapsed a.load_body

/-- Defaults of the keyword parameters of `GPT2TextAdapter.run`:
`max_new_tokens=60, do_sample=True, temperature=0.8`. -/
def GPT2TextAdapter.run_defaults : Nat × Bool × Rat := (60, true, (8 : Rat) / 10)

/-- Undecorated body of `GPT2TextAdapter.run`: lazily loads when `pipe` is
unset, then invokes the pipeline with the keyword options.  `pipeOut` is the
opaque pipeline callable; a library failure surfaces as `pipelineError`.
Returns the result together with the post-state of the adapter. -/
def GPT2TextAdapter.run_body
    (pipeOut : Pipeline → String → Nat → Bool → Rat → Except String PyVal)
    (elapsedLoad : String) (a : GPT2TextAdapter) (prompt : String)
    (max_new_tokens : Nat) (do_sample : Bool) (temperature : Rat) :
    Except Err (PyVal × GPT2TextAdapter) × List Event :=
  let loaded :=
    match a.pipe with
    | none => GPT2TextAdapter.load elapsedLoad a
    | some _ => (Except.ok a, [])
  match loaded with
  | (Except.error e, evs) => (Except.error e, evs)
  | (Except.ok a2, evs) =>
      match a2.pipe with
      | none =>
          -- unreachable: `load` always stores a handle
          (Except.error (Err.pipelineError "pipe is None"), evs)
      | some p =>
          let evs2 :=
            evs ++ [Event.pipeCallText prompt max_new_tokens do_sample temperature]
          match pipeOut p prompt max_new_tokens do_sample temperature with
          | Except.error msg => (Except.error (Err.pipelineError msg), evs2)
          | Except.ok v => (Except.ok (v, a2), evs2)

/-- Model of `GPT2TextAdapter.run` as decorated in the source:
`@timed` over `@requires_input` over the body. -/
def GPT2TextAdapter.run
    (pipeOut : Pipeline → String → Nat → Bool → Rat → Except String PyVal)
    (elapsedLoad elapsedRun : String) (a : GPT2TextAdapter) (prompt : PyArg)
    (max_new_tokens : Nat) (do_sample : Bool) (temperature : Rat) :
    Except Err (PyVal × GPT2TextAdapter) × List Event :=
  timed "GPT2TextAdapter" "run" elapsedRun
    (requires_input prompt (fun s =>
      GPT2TextAdapter.run_body pipeOut elapsedLoad a s
        max_new_tokens do_sample temperature))

/-- Model of `core/adapters.py`, `ViTGPT2CaptionAdapter`: model name, optional
device, lazily initialised pipeline handle. -/
structure ViTGPT2CaptionAdapter where
  model_name : String
  device : Option String
  pipe : Option Pipeline
  deriving Repr, DecidableEq

/-- Model of `ViTGPT2CaptionAdapter.__init__` (via `BaseAdapter.__init__`). -/
def ViTGPT2CaptionAdapter.init (model_name : String)
    (device : Option String) : ViTGPT2CaptionAdapter :=
  { model_name := model_name, device := device, pipe := none }

/-- Undecorated body of `ViTGPT2CaptionAdapter.load`. -/
def ViTGPT2CaptionAdapter.load_body (a : ViTGPT2CaptionAdapter) :
    Except Err ViTGPT2CaptionAdapter × List Event :=
  (Except.ok { a with pipe := some ⟨"image-to-text", a.model_name⟩ },
   [log_line "ViTGPT2CaptionAdapter"
      ("Loading image-to-text pipeline: " ++ a.model_name),
    Event.loadPipe "image-to-text" a.model_name])

/-- Model of `ViTGPT2CaptionAdapter.load` as decorated in the source. -/
def ViTGPT2CaptionAdapter.load (elapsed : String)
    (a : ViTGPT2CaptionAdapter) :
    Except Err ViTGPT2CaptionAdapter × List Event :=
  timed "ViTGPT2CaptionAdapter" "load" elapsed a.load_body

/-- Default of the keyword parameter of `ViTGPT2CaptionAdapter.run`:
`max_new_tokens=30`. -/
def ViTGPT2CaptionAdapter.run_default_max_new_tokens : Nat := 30

/-- Undecorated body of `ViTGPT2CaptionAdapter.run`: checks file existence
first, then lazily loads, then invokes the image-to-text pipeline. -/
def ViTGPT2CaptionAdapter.run_body
    (pipeOut : Pipeline → String → Nat → Except String PyVal)
    (fs : String → Bool) (elapsedLoad : String) (a : ViTGPT2CaptionAdapter)
    (image_path : String) (max_new_tokens : Nat) :
    Except Err (PyVal × ViTGPT2CaptionAdapter) × List Event :=
  match ensure_file_exists fs image_path with
  | (Except.error e, evsF) => (Except.error e, evsF)
  | (Except.ok _, evsF) =>
      let loaded :=
        match a.pipe with
        | none => ViTGPT2CaptionAdapter.load elapsedLoad a
        | some _ => (Except.ok a, [])
      match loaded with
      | (Except.error e, evs) => (Except.error e, evsF ++ evs)
      | (Except.ok a2, evs) =>
          match a2.pipe with
          | none =>
              -- unreachable: `load` always stores a handle
              (Except.error (Err.pipelineError "pipe is None"), evsF ++ evs)
          | some p =>
              let evs2 :=
                evsF ++ evs ++ [Event.pipeCallImage image_path max_new_tokens]
              match pipeOut p image_path max_new_tokens with
              | Except.error msg => (Except.error (Err.pipelineError msg), evs2)
              | Except.ok v => (Except.ok (v, a2), evs2)

/-- Model of `ViTGPT2CaptionAdapter.run` as decorated in the source:
`@timed` over `@requires_input` over the body. -/
def ViTGPT2CaptionAdapter.run
    (pipeOut : Pipeline → String → Nat → Except String PyVal)
    (fs : String → Bool) (elapsedLoad elapsedRun : String)
    (a : ViTGPT2CaptionAdapter) (image_path : PyArg) (max_new_tokens : Nat) :
    Except Err (PyVal × ViTGPT2CaptionAdapter) × List Event :=
  timed "ViTGPT2CaptionAdapter" "run" elapsedRun
    (requires_input image_path (fun s =>
      ViTGPT2CaptionAdapter.run_body pipeOut fs elapsedLoad a s
        max_new_tokens))

/-- A modal dialog shown by the presentation layer
(`messagebox.showwarning` / `showinfo` / `showerror`). -/
inductive Dialog where
  | warning (title msg : String)
  | info (title msg : String)
  | error (title msg : String)
  deriving Repr, DecidableEq

/-- The message text the GUI passes to `messagebox.showerror` via `str(e)`
for an adapter-level exception. -/
def err_str : Err → String
  | Err.invalidInput m => m
  | Err.fileNotFound m => m
  | Err.pipelineError m => m

/-- Model of `gui/views.py`, `MODEL_OPTIONS`: display label to (kind, model id). -/
def MODEL_OPTIONS : List (String × String × String) :=
  [("GPT-2 (openai-community/gpt2)", "text", "openai-community/gpt2"),
   ("ViT-GPT2 (nlpconnect/vit-gpt2-image-captioning)", "image",
    "nlpconnect/vit-gpt2-image-captioning")]

/-- Lookup `MODEL_OPTIONS[label]`: `none` models the `KeyError` case. -/
def model_options_get (label : String) : Option (String × String) :=
  (MODEL_OPTIONS.find? (fun kv => kv.1 == label)).map (fun kv => kv.2)

/-- Model of `gui/views.py`, `MODEL_BRIEFS`: model id to brief info text. -/
def MODEL_BRIEFS : List (String × String) :=
  [("openai-community/gpt2",
    "GPT-2 is a causal language model trained to predict the next token. " ++
    "Good for short-form generation and quick ideation."),
   ("nlpconnect/vit-gpt2-image-captioning",
    "ViT-GPT2 couples a Vision Transformer encoder with a GPT-2 decoder to caption images. " ++
    "Useful for quick, general-purpose descriptions.")]

/-- Lookup `MODEL_BRIEFS.get(model_id, "No info available.")`. -/
def model_briefs_get (model_id : String) : String :=
  match MODEL_BRIEFS.find? (fun kv => kv.1 == model_id) with
  | some kv => kv.2
  | none => "No info available."

/-- Model of `App._model_info_for_current`, as a function of the selected label:
`none` when the label is not a `MODEL_OPTIONS` key (Python `KeyError`). -/
def model_info_for (label : String) : Option String :=
  (model_options_get label).map (fun kd =>
    let title := if kd.1 == "text" then "Text model" else "Image model"
    title ++ ": " ++ kd.2 ++ "\n" ++ model_briefs_get kd.2)

/-- Observable state of the `App` window: adapter slots, selection state,
image state, and the text content of the widgets the handlers touch. -/
structure AppState where
  txt_adapter : Option GPT2TextAdapter
  cap_adapter : Option ViTGPT2CaptionAdapter
  selected_label : String
  model_info : String
  img_path : Option String
  thumb : Option String
  path_label : String
  txt_prompt : String
  txt_out : String
  txt_cap : String
  status_text : String
  text_card_visible : Bool
  img_card_visible : Bool
  deriving Repr, DecidableEq

/-- Model of `App._show_section_for_current`: hide both cards, then show the one
matching the selected descriptor's kind.  `none` models the `KeyError` on an
unknown label. -/
def show_section_for_current (s : AppState) : Option AppState :=
  (model_options_get s.selected_label).map (fun kd =>
    let s2 := { s with text_card_visible := false, img_card_visible := false }
    if kd.1 == "text" then { s2 with text_card_visible := true }
    else { s2 with img_card_visible := true })

/-- Model of `App.__init__`: no adapters, first `MODEL_OPTIONS` key selected, model
info computed, no image state, widgets empty, both cards unpacked by
`_build_ui`, then `_show_section_for_current`. -/
def App.init : Option AppState :=
  MODEL_OPTIONS.head?.bind (fun opt =>
    (model_info_for opt.1).bind (fun info =>
      show_section_for_current
        { txt_adapter := none
          cap_adapter := none
          selected_label := opt.1
          model_info := info
          img_path := none
          thumb := none
          path_label := "No image selected"
          txt_prompt := ""
          txt_out := ""
          txt_cap := ""
          status_text := "Ready"
          text_card_visible := false
          img_card_visible := false }))

/-- Model of `App._on_model_changed`: reset both adapters, re-show the section for
the (already updated) selected label, refresh the model info text. -/
def on_model_changed (s : AppState) : Option AppState :=
  (show_section_for_current
      { s with txt_adapter := none, cap_adapter := none }).bind (fun s2 =>
    (model_info_for s2.selected_label).map (fun info =>
      { s2 with model_info := info }))

/-- A model-selection change: the combobox writes the new label into the
bound variable, then fires `_on_model_changed`. -/
def select_model (s : AppState) (newLabel : String) : Option AppState :=
  on_model_changed { s with selected_label := newLabel }

/-- Model of `gui/views.py` line 202 / 239: unwrap a pipeline result for display.
`out[0].get("generated_text", "") if isinstance(out, list) and out else
str(out)`. -/
def display_text : PyVal → String
  | PyVal.vlist (r :: _) => dict_get r "generated_text" ""
  | v => pyStr v

/-- Model of `App._on_browse` after the file dialog returned `picked` (the empty
string models a cancelled dialog).  `decode` is the opaque
open-and-thumbnail step (`Image.open`/`thumbnail`/`PhotoImage`); its `ok`
value is the thumbnail handle. -/
def on_browse (s : AppState) (picked : String)
    (decode : String → Except String String) : AppState × List Dialog :=
  if picked == "" then (s, [])
  else
    let s1 := { s with img_path := some picked, path_label := picked }
    match decode picked with
    | Except.ok tkimg => ({ s1 with thumb := some tkimg }, [])
    | Except.error e => (s1, [Dialog.error "Preview failed" e])

/-- Model of `App._on_generate`: reads and strips the prompt; empty prompt warns
and aborts; wrong kind informs and aborts; otherwise lazily constructs and
loads the text adapter, calls `run` with `max_new_tokens=80` (other options
left at the adapter defaults), and on success writes the unwrapped text and
updates the status label.  Any exception becomes an error dialog.  `none`
models the `KeyError` on an unknown selected label. -/
def on_generate
    (pipeOut : Pipeline → String → Nat → Bool → Rat → Except String PyVal)
    (elapsedLoad elapsedRun : String) (s : AppState) :
    Option (AppState × List Dialog × List Event) :=
  let prompt := pyStrip s.txt_prompt
  if prompt == "" then
    some (s, [Dialog.warning "Missing" "Please enter a prompt."], [])
  else
    match model_options_get s.selected_label with
    | none => none
    | some kd =>
        if kd.1 == "text" then
          let constructed :=
            match s.txt_adapter with
            | some a => (a, ([] : List Event))
            | none =>
                match GPT2TextAdapter.load elapsedLoad
                    (GPT2TextAdapter.init kd.2 none) with
                | (Except.ok a, evs) => (a, evs)
                | (Except.error _, evs) => (GPT2TextAdapter.init kd.2 none, evs)
          let s1 := { s with txt_adapter := some constructed.1 }
          match GPT2TextAdapter.run pipeOut elapsedLoad elapsedRun
              constructed.1 (PyArg.strVal prompt) 80
              GPT2TextAdapter.run_defaults.2.1
              GPT2TextAdapter.run_defaults.2.2 with
          | (Except.ok (v, a2), evs) =>
              some ({ s1 with
                        txt_adapter := some a2
                        txt_out := display_text v
                        status_text := "Generated with " ++ kd.2 },
                    [], constructed.2 ++ evs)
          | (Except.error e, evs) =>
              some (s1, [Dialog.error "Error" (err_str e)],
                    constructed.2 ++ evs)
        else
          some (s,
            [Dialog.info "Wrong model"
              "Switch to GPT-2 in the model dropdown to use text generation."],
            [])

/-- Model of `App._on_caption`: analogous to `_on_generate`, gated on a stored
image path (Python truthiness: `None` or the empty string both abort with a
warning), calling `run` with `max_new_tokens=30`. -/
def on_caption (pipeOut : Pipeline → String → Nat → Except String PyVal)
    (fs : String → Bool) (elapsedLoad elapsedRun : String) (s : AppState) :
    Option (AppState × List Dialog × List Event) :=
  let missing :=
    some (s, [Dialog.warning "Missing" "Please select an image first."],
          ([] : List Event))
  match s.img_path with
  | none => missing
  | some path =>
      if path == "" then missing
      else
        match model_options_get s.selected_label with
        | none => none
        | some kd =>
            if kd.1 == "image" then
              let constructed :=
                match s.cap_adapter with
                | some a => (a, ([] : List Event))
                | none =>
                    match ViTGPT2CaptionAdapter.load elapsedLoad
                        (ViTGPT2CaptionAdapter.init kd.2 none) with
                    | (Except.ok a, evs) => (a, evs)
                    | (Except.error _, evs) =>
                        (ViTGPT2CaptionAdapter.init kd.2 none, evs)
              let s1 := { s with cap_adapter := some constructed.1 }
              match ViTGPT2CaptionAdapter.run pipeOut fs elapsedLoad
                  elapsedRun constructed.1 (PyArg.strVal path) 30 with
              | (Except.ok (v, a2), evs) =>
                  some ({ s1 with
                            cap_adapter := some a2
                            txt_cap := display_text v },
                        [], constructed.2 ++ evs)
              | (Except.error e, evs) =>
                  some (s1, [Dialog.error "Error" (err_str e)],
                        constructed.2 ++ evs)
            else
              some (s,
                [Dialog.info "Wrong model"
                  "Switch to ViT-GPT2 in the model dropdown to caption images."],
                [])

/-- Number of pipeline-construction events in a trace. -/
def load_count (evts : List Event) : Nat :=
  evts.countP (fun e =>
    match e with
    | Event.loadPipe _ _ => true
    | _ => false)

/-- Whether a trace contains an invocation of the underlying pipeline. -/
def pipe_called (evts : List Event) : Bool :=
  evts.any (fun e =>
    match e with
    | Event.pipeCallText _ _ _ _ => true
    | Event.pipeCallImage _ _ => true
    | _ => false)

/-- Whether a trace contains a file-system probe. -/
def fs_probed (evts : List Event) : Bool :=
  evts.any (fun e =>
    match e with
    | Event.fsExistsCheck _ => true
    | _ => false)

/-- Scans a trace: every pipeline invocation must be preceded by a
pipeline construction, starting from load state `loaded`. -/
def pipe_only_after_load (loaded : Bool) : List Event → Bool
  | [] => true
  | e :: rest =>
      match e with
      | Event.loadPipe _ _ => pipe_only_after_load true rest
      | Event.pipeCallText _ _ _ _ => loaded && pipe_only_after_load loaded rest
      | Event.pipeCallImage _ _ => loaded && pipe_only_after_load loaded rest
      | _ => pipe_only_after_load loaded rest

/-- Panel-visibility consistency: at most one card visible, and when the
selected label resolves to a descriptor, the visible card matches its
kind. -/
def panels_consistent (s : AppState) : Bool :=
  (!(s.text_card_visible && s.img_card_visible)) &&
  (match model_options_get s.selected_label with
   | some kd =>
       s.text_card_visible == (kd.1 == "text") &&
       s.img_card_visible == (kd.1 != "text")
   | none => true)

/-- A concrete window state used by witnesses: GPT-2 selected, a prompt
entered, nothing loaded yet. -/
def genWitnessState : AppState :=
  { txt_adapter := none
    cap_adapter := none
    selected_label := "GPT-2 (openai-community/gpt2)"
    model_info := ""
    img_path := none
    thumb := none
    path_label := "No image selected"
    txt_prompt := "Hello world"
    txt_out := ""
    txt_cap := ""
    status_text := "Ready"
    text_card_visible := true
    img_card_visible := false }

/-- A concrete constant text pipeline used by witnesses. -/
def pcWitness : Pipeline → String → Nat → Bool → Rat → Except String PyVal :=
  fun _ _ _ _ _ =>
    Except.ok (PyVal.vlist [[("generated_text", "Hello world, hi")]])

/-- The state `App.__init__` produces, written out for witnesses. -/
def initWitnessState : AppState :=
  { txt_adapter := none
    cap_adapter := none
    selected_label := "GPT-2 (openai-community/gpt2)"
    model_info := "Text model: openai-community/gpt2\n" ++
      "GPT-2 is a causal language model trained to predict the next token. " ++
      "Good for short-form generation and quick ideation."
    img_path := none
    thumb := none
    path_label := "No image selected"
    txt_prompt := ""
    txt_out := ""
    txt_cap := ""
    status_text := "Ready"
    text_card_visible := true
    img_card_visible := false }

/-- The state a model change to ViT-GPT2 produces from `genWitnessState`,
written out for witnesses. -/
def vitWitnessState : AppState :=
  { txt_adapter := none
    cap_adapter := none
    selected_label := "ViT-GPT2 (nlpconnect/vit-gpt2-image-captioning)"
    model_info := "Image model: nlpconnect/vit-gpt2-image-captioning\n" ++
      "ViT-GPT2 couples a Vision Transformer encoder with a GPT-2 decoder to caption images. " ++
      "Useful for quick, general-purpose descriptions."
    img_path := none
    thumb := none
    path_label := "No image selected"
    txt_prompt := "Hello world"
    txt_out := ""
    txt_cap := ""
    status_text := "Ready"
    text_card_visible := false
    img_card_visible := true }

/-! ### Helper lemmas -/

/-- The decorated `load` on the text adapter always succeeds, stores the text-generation
handle, and emits the two load log events plus the timing line. -/
theorem text_adapter_load_eq (el : String) (a : GPT2TextAdapter) :
    GPT2TextAdapter.load el a =
      (Except.ok { a with pipe := some ⟨"text-generation", a.model_name⟩ },
       [log_line "GPT2TextAdapter"
          ("Loading text-generation pipeline: " ++ a.model_name),
        Event.loadPipe "text-generation" a.model_name,
        log_line "GPT2TextAdapter" ("load() finished in " ++ el ++ "s")]) := rfl

/-- The decorated `load` on the caption adapter always succeeds, stores the image-to-text
handle, and emits the two load log events plus the timing line. -/
theorem caption_adapter_load_eq (el : String) (a : ViTGPT2CaptionAdapter) :
    ViTGPT2CaptionAdapter.load el a =
      (Except.ok { a with pipe := some ⟨"image-to-text", a.model_name⟩ },
       [log_line "ViTGPT2CaptionAdapter"
          ("Loading image-to-text pipeline: " ++ a.model_name),
        Event.loadPipe "image-to-text" a.model_name,
        log_line "ViTGPT2CaptionAdapter" ("load() finished in " ++ el ++ "s")]) := rfl

/-- The `timed` wrapper passes the wrapped call's result through
unchanged. -/
theorem timed_fst {β : Type} (cls fn el : String)
    (r : Except Err β × List Event) : (timed cls fn el r).1 = r.1 := by
  obtain ⟨res, evs⟩ := r
  cases res <;> simp [timed]

/-- Stripping is idempotent on the character-list level. -/
theorem stripChars_idem (l : List Char) :
    List.rdropWhile Char.isWhitespace
        ((List.rdropWhile Char.isWhitespace
            (l.dropWhile Char.isWhitespace)).dropWhile Char.isWhitespace)
      = List.rdropWhile Char.isWhitespace (l.dropWhile Char.isWhitespace) := by
  have h1 : (List.rdropWhile Char.isWhitespace
      (l.dropWhile Char.isWhitespace)).dropWhile Char.isWhitespace
      = List.rdropWhile Char.isWhitespace (l.dropWhile Char.isWhitespace) := by
    rw [List.dropWhile_eq_self_iff]
    intro hl
    have hpre := List.rdropWhile_prefix Char.isWhitespace
      (l.dropWhile Char.isWhitespace)
    have hl2 : 0 < (l.dropWhile Char.isWhitespace).length :=
      Nat.lt_of_lt_of_le hl hpre.length_le
    have heq := hpre.getElem hl
    have hnot := List.dropWhile_get_zero_not Char.isWhitespace l hl2
    simp only [List.get_eq_getElem] at hnot ⊢
    rw [heq]
    exact hnot
  rw [h1]
  exact List.rdropWhile_idempotent Char.isWhitespace _

/-- Stripping via `pyStrip` is idempotent, matching Python `str.strip()`. -/
theorem pyStrip_idem (s : String) : pyStrip (pyStrip s) = pyStrip s :=
  congrArg String.mk (stripChars_idem s.data)

/-- The body of the text `run` (past the input guard) never produces an
`invalidInput` error: its only failure mode is `pipelineError`. -/
theorem text_run_body_not_invalid
    (pipeOut : Pipeline → String → Nat → Bool → Rat → Except String PyVal)
    (elL : String) (a : GPT2TextAdapter) (x : String) (mnt : Nat) (ds : Bool)
    (t : Rat) (msg : String) :
    (GPT2TextAdapter.run_body pipeOut elL a x mnt ds t).1 ≠
      Except.error (Err.invalidInput msg) := by
  cases hp : a.pipe with
  | none =>
      simp only [GPT2TextAdapter.run_body, hp, text_adapter_load_eq]
      cases hout : pipeOut ⟨"text-generation", a.model_name⟩ x mnt ds t <;>
        simp [hout]
  | some p =>
      simp only [GPT2TextAdapter.run_body, hp]
      cases hout : pipeOut p x mnt ds t <;> simp [hout]

/-! ### C1 -/

/-- C1: for every call to `run` on the image-captioning adapter with a
non-empty, non-whitespace path string that does not reference an existing
file, `run` raises the `FileNotFound` error and the underlying pipeline is
never invoked. -/
theorem caption_run_missing_file_raises
    (pipeOut : Pipeline → String → Nat → Except String PyVal)
    (fs : String → Bool) (elL elR : String) (a : ViTGPT2CaptionAdapter)
    (path : String) (mnt : Nat)
    (hPath : pyStrip path ≠ "") (hFs : fs path = false) :
    (ViTGPT2CaptionAdapter.run pipeOut fs elL elR a (PyArg.strVal path) mnt).1
        = Except.error (Err.fileNotFound ("File not found: " ++ path)) ∧
    pipe_called
      (ViTGPT2CaptionAdapter.run pipeOut fs elL elR a (PyArg.strVal path) mnt).2
        = false := by
  have hb : (pyStrip path == "") = false := by
    simpa using hPath
  simp [ViTGPT2CaptionAdapter.run, requires_input, hb,
        ViTGPT2CaptionAdapter.run_body, ensure_file_exists, hFs, timed,
        pipe_called]

/-- Witness for C1: a concrete run against an empty file system. -/
theorem caption_run_missing_file_raises_witness :
    (ViTGPT2CaptionAdapter.run (fun _ _ _ => Except.ok (PyVal.vlist []))
        (fun _ => false) "0.01" "0.02"
        (ViTGPT2CaptionAdapter.init "nlpconnect/vit-gpt2-image-captioning" none)
        (PyArg.strVal "cat.png") 30).1
      = Except.error (Err.fileNotFound ("File not found: " ++ "cat.png")) ∧
    pipe_called
      (ViTGPT2CaptionAdapter.run (fun _ _ _ => Except.ok (PyVal.vlist []))
        (fun _ => false) "0.01" "0.02"
        (ViTGPT2CaptionAdapter.init "nlpconnect/vit-gpt2-image-captioning" none)
        (PyArg.strVal "cat.png") 30).2
      = false :=
  caption_run_missing_file_raises _ _ _ _ _ _ _ (by decide) rfl

/-! ### C5 -/

/-- C5: when thumbnail decoding fails during Browse after the user picks a
file, an error dialog is shown and the recorded image path selection is not
rolled back: the stored path remains set to the picked file, the path label
shows it, and the thumbnail state is untouched. -/
theorem browse_decode_failure_keeps_path (s : AppState) (picked : String)
    (decode : String → Except String String) (msg : String)
    (hPick : picked ≠ "") (hDec : decode picked = Except.error msg) :
    on_browse s picked decode =
      ({ s with img_path := some picked, path_label := picked },
       [Dialog.error "Preview failed" msg]) := by
  have hb : (picked == "") = false := by simpa using hPick
  simp [on_browse, hb, hDec]

/-- Witness for C5: a concrete browse whose decode step fails. -/
theorem browse_decode_failure_keeps_path_witness :
    on_browse genWitnessState "broken.png"
        (fun _ => Except.error "cannot identify image file") =
      ({ genWitnessState with
           img_path := some "broken.png", path_label := "broken.png" },
       [Dialog.error "Preview failed" "cannot identify image file"]) :=
  browse_decode_failure_keeps_path genWitnessState "broken.png" _
    "cannot identify image file" (by decide) rfl

/-! ### C10 -/

/-- C10: the `timed` wrapper returns exactly the wrapped operation's return
value (it never attaches elapsed time to the result, despite its
docstring), so the decorated `load` and `run` operations are
result-equivalent to their undecorated bodies. -/
theorem timed_preserves_result :
    (∀ (β : Type) (cls fn el : String) (r : Except Err β × List Event),
      (timed cls fn el r).1 = r.1) ∧
    (∀ (el : String) (a : GPT2TextAdapter),
      (GPT2TextAdapter.load el a).1 = a.load_body.1) ∧
    (∀ pipeOut (elL elR : String) (a : GPT2TextAdapter) (p : PyArg)
        (mnt : Nat) (ds : Bool) (t : Rat),
      (GPT2TextAdapter.run pipeOut elL elR a p mnt ds t).1 =
        (requires_input p (fun x =>
          GPT2TextAdapter.run_body pipeOut elL a x mnt ds t)).1) ∧
    (∀ (el : String) (a : ViTGPT2CaptionAdapter),
      (ViTGPT2CaptionAdapter.load el a).1 = a.load_body.1) ∧
    (∀ pipeOut (fs : String → Bool) (elL elR : String)
        (a : ViTGPT2CaptionAdapter) (p : PyArg) (mnt : Nat),
      (ViTGPT2CaptionAdapter.run pipeOut fs elL elR a p mnt).1 =
        (requires_input p (fun x =>
          ViTGPT2CaptionAdapter.run_body pipeOut fs elL a x mnt)).1) := by
  have hT : ∀ (β : Type) (cls fn el : String) (r : Except Err β × List Event),
      (timed cls fn el r).1 = r.1 := by
    intro β cls fn el r
    obtain ⟨res, evs⟩ := r
    cases res <;> simp [timed]
  refine ⟨hT, ?_, ?_, ?_, ?_⟩
  · intro el a
    exact hT _ _ _ _ _
  · intro pipeOut elL elR a p mnt ds t
    exact hT _ _ _ _ _
  · intro el a
    exact hT _ _ _ _ _
  · intro pipeOut fs elL elR a p mnt
    exact hT _ _ _ _ _

/-! ### C9 -/

/-- C9: for the image-captioning adapter the input-emptiness check runs
before the file-existence check: a `run` whose path argument is absent,
`None`, empty, or whitespace-only raises `InvalidInput` (not `FileNotFound`)
without consulting the file system or invoking the pipeline. -/
theorem caption_run_blank_input_raises_first
    (pipeOut : Pipeline → String → Nat → Except String PyVal)
    (fs : String → Bool) (elL elR : String) (a : ViTGPT2CaptionAdapter)
    (arg : PyArg) (mnt : Nat)
    (hArg : arg = PyArg.missing ∨ arg = PyArg.noneVal ∨
      ∃ x, arg = PyArg.strVal x ∧ pyStrip x = "") :
    (∃ msg, (ViTGPT2CaptionAdapter.run pipeOut fs elL elR a arg mnt).1
        = Except.error (Err.invalidInput msg)) ∧
    fs_probed (ViTGPT2CaptionAdapter.run pipeOut fs elL elR a arg mnt).2
        = false ∧
    pipe_called (ViTGPT2CaptionAdapter.run pipeOut fs elL elR a arg mnt).2
        = false := by
  rcases hArg with h | h | ⟨x, hx, hblank⟩
  · subst h
    exact ⟨⟨"Input required", rfl⟩, rfl, rfl⟩
  · subst h
    exact ⟨⟨"Input cannot be None", rfl⟩, rfl, rfl⟩
  · subst hx
    have hb : (pyStrip x == "") = true := by simpa using hblank
    refine ⟨⟨"Input string cannot be empty", ?_⟩, ?_, ?_⟩ <;>
      simp [ViTGPT2CaptionAdapter.run, requires_input, hb, timed,
            fs_probed, pipe_called]

/-- Witness for C9: a concrete whitespace-only path. -/
theorem caption_run_blank_input_raises_first_witness :
    (∃ msg, (ViTGPT2CaptionAdapter.run
        (fun _ _ _ => Except.ok (PyVal.vlist [])) (fun _ => true) "0.01" "0.02"
        (ViTGPT2CaptionAdapter.init "nlpconnect/vit-gpt2-image-captioning" none)
        (PyArg.strVal "   ") 30).1 = Except.error (Err.invalidInput msg)) ∧
    fs_probed (ViTGPT2CaptionAdapter.run
        (fun _ _ _ => Except.ok (PyVal.vlist [])) (fun _ => true) "0.01" "0.02"
        (ViTGPT2CaptionAdapter.init "nlpconnect/vit-gpt2-image-captioning" none)
        (PyArg.strVal "   ") 30).2 = false ∧
    pipe_called (ViTGPT2CaptionAdapter.run
        (fun _ _ _ => Except.ok (PyVal.vlist [])) (fun _ => true) "0.01" "0.02"
        (ViTGPT2CaptionAdapter.init "nlpconnect/vit-gpt2-image-captioning" none)
        (PyArg.strVal "   ") 30).2 = false :=
  caption_run_blank_input_raises_first _ _ _ _ _ _ _
    (Or.inr (Or.inr ⟨"   ", rfl, by decide⟩))

/-! ### C2 -/

/-- C2: `run` on the text adapter raises `InvalidInput` exactly when the
prompt is absent, `None`, empty, or whitespace-only; when it raises, it
does so before the underlying pipeline is touched (no events at all have
occurred); and for every non-empty, non-whitespace prompt it does not raise
`InvalidInput`. -/
theorem text_run_invalid_input_iff
    (pipeOut : Pipeline → String → Nat → Bool → Rat → Except String PyVal)
    (elL elR : String) (a : GPT2TextAdapter) (prompt : PyArg) (mnt : Nat)
    (ds : Bool) (t : Rat) :
    ((∃ msg, (GPT2TextAdapter.run pipeOut elL elR a prompt mnt ds t).1
        = Except.error (Err.invalidInput msg)) ↔
      (prompt = PyArg.missing ∨ prompt = PyArg.noneVal ∨
        ∃ x, prompt = PyArg.strVal x ∧ pyStrip x = "")) ∧
    ((∃ msg, (GPT2TextAdapter.run pipeOut elL elR a prompt mnt ds t).1
        = Except.error (Err.invalidInput msg)) →
      (GPT2TextAdapter.run pipeOut elL elR a prompt mnt ds t).2 = []) := by
  constructor
  · constructor
    · intro ⟨msg, hmsg⟩
      cases prompt with
      | missing => exact Or.inl rfl
      | noneVal => exact Or.inr (Or.inl rfl)
      | strVal x =>
          refine Or.inr (Or.inr ⟨x, rfl, ?_⟩)
          by_contra hx
          have hb : (pyStrip x == "") = false := by simpa using hx
          rw [GPT2TextAdapter.run, timed_fst] at hmsg
          simp only [requires_input, hb, Bool.false_eq_true, if_false] at hmsg
          exact text_run_body_not_invalid pipeOut elL a x mnt ds t msg hmsg
    · intro h
      rcases h with h | h | ⟨x, hx, hblank⟩
      · subst h
        exact ⟨"Input required", rfl⟩
      · subst h
        exact ⟨"Input cannot be None", rfl⟩
      · subst hx
        have hb : (pyStrip x == "") = true := by simpa using hblank
        refine ⟨"Input string cannot be empty", ?_⟩
        simp [GPT2TextAdapter.run, requires_input, hb, timed]
  · intro ⟨msg, hmsg⟩
    cases prompt with
    | missing => rfl
    | noneVal => rfl
    | strVal x =>
        by_cases hx : pyStrip x = ""
        · have hb : (pyStrip x == "") = true := by simpa using hx
          simp [GPT2TextAdapter.run, requires_input, hb, timed]
        · exfalso
          have hb : (pyStrip x == "") = false := by simpa using hx
          rw [GPT2TextAdapter.run, timed_fst] at hmsg
          simp only [requires_input, hb, Bool.false_eq_true, if_false] at hmsg
          exact text_run_body_not_invalid pipeOut elL a x mnt ds t msg hmsg

/-- Witness for C2: at a concrete whitespace-only prompt the equivalence
yields the `InvalidInput` error and the empty trace. -/
theorem text_run_invalid_input_iff_witness :
    (∃ msg, (GPT2TextAdapter.run
        (fun _ _ _ _ _ => Except.ok (PyVal.vlist []))
        "0.01" "0.02" (GPT2TextAdapter.init "openai-community/gpt2" none)
        (PyArg.strVal " \t ") 60 true ((8 : Rat) / 10)).1
      = Except.error (Err.invalidInput msg)) ∧
    (GPT2TextAdapter.run (fun _ _ _ _ _ => Except.ok (PyVal.vlist []))
        "0.01" "0.02" (GPT2TextAdapter.init "openai-community/gpt2" none)
        (PyArg.strVal " \t ") 60 true ((8 : Rat) / 10)).2 = [] := by
  have h := text_run_invalid_input_iff
    (fun _ _ _ _ _ => Except.ok (PyVal.vlist [])) "0.01" "0.02"
    (GPT2TextAdapter.init "openai-community/gpt2" none)
    (PyArg.strVal " \t ") 60 true ((8 : Rat) / 10)
  have hr : (∃ msg, (GPT2TextAdapter.run
      (fun _ _ _ _ _ => Except.ok (PyVal.vlist []))
      "0.01" "0.02" (GPT2TextAdapter.init "openai-community/gpt2" none)
      (PyArg.strVal " \t ") 60 true ((8 : Rat) / 10)).1
    = Except.error (Err.invalidInput msg)) :=
    h.1.mpr (Or.inr (Or.inr ⟨" \t ", rfl, by decide⟩))
  exact ⟨hr, h.2 hr⟩

/-! ### C3 -/

/-- C3: on a freshly constructed adapter (pipeline handle absent), `run`
with valid input performs `load` exactly once before the underlying
pipeline is invoked; and on any adapter, for any input, the pipeline is
never invoked while the adapter is in the `Unloaded` state (every pipeline
invocation in the trace is preceded by a pipeline construction, starting
from the adapter's current load state). -/
theorem run_lazy_loads_exactly_once :
    (∀ pipeOut (elL elR m : String) (d : Option String) (x : String)
        (mnt : Nat) (ds : Bool) (t : Rat), pyStrip x ≠ "" →
      load_count (GPT2TextAdapter.run pipeOut elL elR
          (GPT2TextAdapter.init m d) (PyArg.strVal x) mnt ds t).2 = 1 ∧
      pipe_called (GPT2TextAdapter.run pipeOut elL elR
          (GPT2TextAdapter.init m d) (PyArg.strVal x) mnt ds t).2 = true ∧
      pipe_only_after_load false (GPT2TextAdapter.run pipeOut elL elR
          (GPT2TextAdapter.init m d) (PyArg.strVal x) mnt ds t).2 = true) ∧
    (∀ pipeOut (fs : String → Bool) (elL elR m : String) (d : Option String)
        (x : String) (mnt : Nat), pyStrip x ≠ "" → fs x = true →
      load_count (ViTGPT2CaptionAdapter.run pipeOut fs elL elR
          (ViTGPT2CaptionAdapter.init m d) (PyArg.strVal x) mnt).2 = 1 ∧
      pipe_called (ViTGPT2CaptionAdapter.run pipeOut fs elL elR
          (ViTGPT2CaptionAdapter.init m d) (PyArg.strVal x) mnt).2 = true ∧
      pipe_only_after_load false (ViTGPT2CaptionAdapter.run pipeOut fs elL elR
          (ViTGPT2CaptionAdapter.init m d) (PyArg.strVal x) mnt).2 = true) ∧
    (∀ pipeOut (elL elR : String) (a : GPT2TextAdapter) (p : PyArg)
        (mnt : Nat) (ds : Bool) (t : Rat),
      pipe_only_after_load a.pipe.isSome
        (GPT2TextAdapter.run pipeOut elL elR a p mnt ds t).2 = true) ∧
    (∀ pipeOut (fs : String → Bool) (elL elR : String)
        (a : ViTGPT2CaptionAdapter) (p : PyArg) (mnt : Nat),
      pipe_only_after_load a.pipe.isSome
        (ViTGPT2CaptionAdapter.run pipeOut fs elL elR a p mnt).2 = true) := by
  refine ⟨?_, ?_, ?_, ?_⟩
  · intro pipeOut elL elR m d x mnt ds t hx
    have hb : (pyStrip x == "") = false := by simpa using hx
    cases hout : pipeOut ⟨"text-generation", m⟩ x mnt ds t <;>
      refine ⟨?_, ?_, ?_⟩ <;>
        simp [GPT2TextAdapter.run, requires_input, hb,
              GPT2TextAdapter.run_body, GPT2TextAdapter.init,
              text_adapter_load_eq, timed, hout, load_count, pipe_called,
              pipe_only_after_load, log_line]
  · intro pipeOut fs elL elR m d x mnt hx hfs
    have hb : (pyStrip x == "") = false := by simpa using hx
    cases hout : pipeOut ⟨"image-to-text", m⟩ x mnt <;>
      refine ⟨?_, ?_, ?_⟩ <;>
        simp [ViTGPT2CaptionAdapter.run, requires_input, hb,
              ViTGPT2CaptionAdapter.run_body, ViTGPT2CaptionAdapter.init,
              caption_adapter_load_eq, ensure_file_exists, hfs, timed,
              hout, load_count, pipe_called, pipe_only_after_load, log_line]
  · intro pipeOut elL elR a p mnt ds t
    cases p with
    | missing => rfl
    | noneVal => rfl
    | strVal x =>
        by_cases hx : pyStrip x = ""
        · have hb : (pyStrip x == "") = true := by simpa using hx
          simp [GPT2TextAdapter.run, requires_input, hb, timed,
                pipe_only_after_load]
        · have hb : (pyStrip x == "") = false := by simpa using hx
          cases hp : a.pipe with
          | none =>
              cases hout : pipeOut ⟨"text-generation", a.model_name⟩ x mnt ds t <;>
                simp [GPT2TextAdapter.run, requires_input, hb,
                      GPT2TextAdapter.run_body, hp, text_adapter_load_eq,
                      timed, hout, pipe_only_after_load, log_line]
          | some pl =>
              cases hout : pipeOut pl x mnt ds t <;>
                simp [GPT2TextAdapter.run, requires_input, hb,
                      GPT2TextAdapter.run_body, hp, timed, hout,
                      pipe_only_after_load, log_line]
  · intro pipeOut fs elL elR a p mnt
    cases p with
    | missing => rfl
    | noneVal => rfl
    | strVal x =>
        by_cases hx : pyStrip x = ""
        · have hb : (pyStrip x == "") = true := by simpa using hx
          simp [ViTGPT2CaptionAdapter.run, requires_input, hb, timed,
                pipe_only_after_load]
        · have hb : (pyStrip x == "") = false := by simpa using hx
          by_cases hfs : fs x = true
          · cases hp : a.pipe with
            | none =>
                cases hout : pipeOut ⟨"image-to-text", a.model_name⟩ x mnt <;>
                  simp [ViTGPT2CaptionAdapter.run, requires_input, hb,
                        ViTGPT2CaptionAdapter.run_body, hp,
                        caption_adapter_load_eq, ensure_file_exists,
                        hfs, timed, hout, pipe_only_after_load, log_line]
            | some pl =>
                cases hout : pipeOut pl x mnt <;>
                  simp [ViTGPT2CaptionAdapter.run, requires_input, hb,
                        ViTGPT2CaptionAdapter.run_body, hp,
                        ensure_file_exists, hfs, timed, hout,
                        pipe_only_after_load, log_line]
          · have hfs2 : fs x = false := by
              cases h2 : fs x
              · rfl
              · exact absurd h2 hfs
            simp [ViTGPT2CaptionAdapter.run, requires_input, hb,
                  ViTGPT2CaptionAdapter.run_body, ensure_file_exists, hfs2,
                  timed, pipe_only_after_load]

/-- Witness for C3: a concrete fresh text adapter with a valid prompt loads
once before the single pipeline invocation. -/
theorem run_lazy_loads_exactly_once_witness :
    load_count (GPT2TextAdapter.run
        (fun _ _ _ _ _ => Except.ok (PyVal.vlist [[("generated_text", "hi")]]))
        "0.1" "0.2" (GPT2TextAdapter.init "openai-community/gpt2" none)
        (PyArg.strVal "Hello world") 80 true ((8 : Rat) / 10)).2 = 1 ∧
    pipe_called (GPT2TextAdapter.run
        (fun _ _ _ _ _ => Except.ok (PyVal.vlist [[("generated_text", "hi")]]))
        "0.1" "0.2" (GPT2TextAdapter.init "openai-community/gpt2" none)
        (PyArg.strVal "Hello world") 80 true ((8 : Rat) / 10)).2 = true ∧
    pipe_only_after_load false (GPT2TextAdapter.run
        (fun _ _ _ _ _ => Except.ok (PyVal.vlist [[("generated_text", "hi")]]))
        "0.1" "0.2" (GPT2TextAdapter.init "openai-community/gpt2" none)
        (PyArg.strVal "Hello world") 80 true ((8 : Rat) / 10)).2 = true :=
  run_lazy_loads_exactly_once.1
    (fun _ _ _ _ _ => Except.ok (PyVal.vlist [[("generated_text", "hi")]]))
    "0.1" "0.2" "openai-community/gpt2" none "Hello world" 80 true
    ((8 : Rat) / 10) (by decide)

/-! ### C4 -/

/-- C4: the text written to the output (or caption) area by the Generate
and Generate Caption actions equals the `generated_text` field of the first
result record when the pipeline result is a non-empty list (the empty
string if that field is absent), and equals the string conversion of the
whole result otherwise. -/
theorem result_unwrapping_spec :
    (∀ (r : PyDict) (rs : List PyDict),
      display_text (PyVal.vlist (r :: rs)) = dict_get r "generated_text" "") ∧
    (∀ (r : PyDict) (rs : List PyDict),
      r.find? (fun kv => kv.1 == "generated_text") = none →
      display_text (PyVal.vlist (r :: rs)) = "") ∧
    (∀ v : PyVal, (∀ r rs, v ≠ PyVal.vlist (r :: rs)) →
      display_text v = pyStr v) ∧
    (∀ pipeOut (elL elR : String) (s : AppState) (mid : String) (v : PyVal),
      model_options_get s.selected_label = some ("text", mid) →
      s.txt_adapter = none →
      pyStrip s.txt_prompt ≠ "" →
      pipeOut ⟨"text-generation", mid⟩ (pyStrip s.txt_prompt) 80 true
          ((8 : Rat) / 10) = Except.ok v →
      ∀ s2 dlgs evts, on_generate pipeOut elL elR s = some (s2, dlgs, evts) →
        s2.txt_out = display_text v) ∧
    (∀ pipeOut (fs : String → Bool) (elL elR : String) (s : AppState)
        (mid path : String) (v : PyVal),
      model_options_get s.selected_label = some ("image", mid) →
      s.cap_adapter = none →
      s.img_path = some path →
      pyStrip path ≠ "" → path ≠ "" → fs path = true →
      pipeOut ⟨"image-to-text", mid⟩ path 30 = Except.ok v →
      ∀ s2 dlgs evts,
        on_caption pipeOut fs elL elR s = some (s2, dlgs, evts) →
        s2.txt_cap = display_text v) := by
  refine ⟨?_, ?_, ?_, ?_, ?_⟩
  · intro r rs
    rfl
  · intro r rs hnone
    simp [display_text, dict_get, hnone]
  · intro v hv
    cases v with
    | vlist rs =>
        cases rs with
        | nil => rfl
        | cons r rs => exact absurd rfl (hv r rs)
    | vother s => rfl
  · intro pipeOut elL elR s mid v hsel hfresh hprompt hout s2 dlgs evts h
    have hb : (pyStrip s.txt_prompt == "") = false := by simpa using hprompt
    have hb1 : (pyStrip (pyStrip s.txt_prompt) == "") = false := by
      rw [pyStrip_idem]
      exact hb
    simp [on_generate, hb, hb1, hsel, hfresh,
          text_adapter_load_eq, GPT2TextAdapter.run,
          GPT2TextAdapter.run_body, requires_input, timed,
          GPT2TextAdapter.run_defaults, GPT2TextAdapter.init, hout,
          Option.some.injEq, Prod.mk.injEq] at h
    obtain ⟨h1, -, -⟩ := h
    rw [← h1]
  · intro pipeOut fs elL elR s mid path v hsel hfresh hpath hstrip hne hfs
        hout s2 dlgs evts h
    have hb : (pyStrip path == "") = false := by simpa using hstrip
    have hb2 : (path == "") = false := by simpa using hne
    simp [on_caption, hpath, hb2, hsel,
          hfresh, caption_adapter_load_eq,
          ViTGPT2CaptionAdapter.run, ViTGPT2CaptionAdapter.run_body,
          requires_input, hb, ensure_file_exists, hfs, timed,
          ViTGPT2CaptionAdapter.init, hout,
          Option.some.injEq, Prod.mk.injEq] at h
    obtain ⟨h1, -, -⟩ := h
    rw [← h1]

/-- Witness for C4: a concrete Generate click on `genWitnessState` with a
concrete one-record pipeline result. -/
theorem result_unwrapping_spec_witness :
    (on_generate pcWitness "0.1" "0.2" genWitnessState).map
        (fun r => r.1.txt_out)
      = some (display_text
          (PyVal.vlist [[("generated_text", "Hello world, hi")]])) := by
  cases hA : on_generate pcWitness "0.1" "0.2" genWitnessState with
  | none => exact absurd hA (by decide)
  | some r =>
      have h := result_unwrapping_spec.2.2.2.1 pcWitness "0.1" "0.2"
        genWitnessState "openai-community/gpt2"
        (PyVal.vlist [[("generated_text", "Hello world, hi")]])
        (by decide) rfl (by decide) rfl r.1 r.2.1 r.2.2 (by rw [hA])
      exact congrArg some h

/-! ### C6 and C8 helpers -/

/-- Showing a section via `_show_section_for_current` establishes panel consistency and leaves
every other field unchanged. -/
theorem show_section_panels (s s2 : AppState)
    (h : show_section_for_current s = some s2) :
    panels_consistent s2 = true ∧ s2.selected_label = s.selected_label ∧
    s2.txt_adapter = s.txt_adapter ∧ s2.cap_adapter = s.cap_adapter ∧
    s2.model_info = s.model_info := by
  cases hk : model_options_get s.selected_label with
  | none => simp [show_section_for_current, hk] at h
  | some kd =>
      simp only [show_section_for_current, hk, Option.map_some',
                 Option.some.injEq] at h
      cases hkind : (kd.1 == "text") with
      | true =>
          rw [if_pos hkind] at h
          subst h
          simp [panels_consistent, hk, hkind, bne]
      | false =>
          rw [if_neg (by simp [hkind])] at h
          subst h
          simp [panels_consistent, hk, hkind, bne]

/-- Handler `_on_model_changed` clears both adapters, keeps the selected label,
re-establishes panel consistency, and stores the looked-up model info. -/
theorem on_model_changed_char (s s2 : AppState)
    (h : on_model_changed s = some s2) :
    s2.txt_adapter = none ∧ s2.cap_adapter = none ∧
    s2.selected_label = s.selected_label ∧
    panels_consistent s2 = true ∧
    model_info_for s2.selected_label = some s2.model_info := by
  unfold on_model_changed at h
  cases hss : show_section_for_current
      { s with txt_adapter := none, cap_adapter := none } with
  | none => rw [hss] at h; cases h
  | some s2' =>
      rw [hss] at h
      simp only [Option.some_bind] at h
      cases hmi : model_info_for s2'.selected_label with
      | none =>
          rw [hmi] at h
          simp only [Option.map_none'] at h
          cases h
      | some info =>
          rw [hmi] at h
          simp only [Option.map_some', Option.some.injEq] at h
          subst h
          have hsp := show_section_panels _ _ hss
          refine ⟨hsp.2.2.1, hsp.2.2.2.1, hsp.2.1, hsp.1, ?_⟩
          exact hmi

/-- Initialization via `App.__init__` establishes panel consistency. -/
theorem App.init_panels (s : AppState) (h : App.init = some s) :
    panels_consistent s = true := by
  unfold App.init at h
  cases h2 : MODEL_OPTIONS.head? with
  | none =>
      rw [h2] at h
      simp only [Option.none_bind] at h
      cases h
  | some opt =>
      rw [h2] at h
      simp only [Option.some_bind] at h
      cases h3 : model_info_for opt.1 with
      | none =>
          rw [h3] at h
          simp only [Option.none_bind] at h
          cases h
      | some info =>
          rw [h3] at h
          simp only [Option.some_bind] at h
          exact (show_section_panels _ _ h).1

/-! ### C6 -/

/-- C6: on every model-selection change, both adapter instances are reset
to absent (so the next action re-loads from scratch), the visible panel is
switched to match the new descriptor's kind, and the model-info text is
updated from the static lookup table; the lookup falls back to
`"No info available."` when no entry exists. -/
theorem model_changed_resets_and_updates :
    (∀ s s2, on_model_changed s = some s2 →
      s2.txt_adapter = none ∧ s2.cap_adapter = none ∧
      s2.selected_label = s.selected_label ∧
      panels_consistent s2 = true ∧
      model_info_for s2.selected_label = some s2.model_info) ∧
    (∀ mid, MODEL_BRIEFS.find? (fun kv => kv.1 == mid) = none →
      model_briefs_get mid = "No info available.") :=
  ⟨fun s s2 h => on_model_changed_char s s2 h,
   fun mid hmid => by simp [model_briefs_get, hmid]⟩

set_option maxRecDepth 8000 in
/-- Witness for C6: switching `genWitnessState` to the ViT-GPT2 descriptor
produces exactly `vitWitnessState`, and the fallback text fires on an
unknown model id. -/
theorem model_changed_resets_and_updates_witness :
    (vitWitnessState.txt_adapter = none ∧
     vitWitnessState.cap_adapter = none ∧
     vitWitnessState.selected_label =
       ({ genWitnessState with selected_label :=
           "ViT-GPT2 (nlpconnect/vit-gpt2-image-captioning)" } :
             AppState).selected_label ∧
     panels_consistent vitWitnessState = true ∧
     model_info_for vitWitnessState.selected_label =
       some vitWitnessState.model_info) ∧
    model_briefs_get "other/model" = "No info available." :=
  ⟨model_changed_resets_and_updates.1
      { genWitnessState with selected_label :=
          "ViT-GPT2 (nlpconnect/vit-gpt2-image-captioning)" }
      vitWitnessState (by decide),
   model_changed_resets_and_updates.2 "other/model" (by decide)⟩

/-! ### C8 -/

/-- C8: after initialization and after every model-selection change, at
most one of the text panel and the image panel is visible, and the visible
panel's kind equals the currently selected descriptor's kind. -/
theorem panel_visibility_invariant :
    (∀ s, App.init = some s → panels_consistent s = true) ∧
    (∀ s s2, on_model_changed s = some s2 → panels_consistent s2 = true) :=
  ⟨App.init_panels,
   fun s s2 h => (on_model_changed_char s s2 h).2.2.2.1⟩

set_option maxRecDepth 8000 in
/-- Witness for C8: the initial state is exactly `initWitnessState`, which
is panel-consistent. -/
theorem panel_visibility_invariant_witness :
    panels_consistent initWitnessState = true :=
  panel_visibility_invariant.1 initWitnessState (by decide)

/-! ### C7 -/

/-- C7: the text adapter's `run` defaults are `max_new_tokens=60`,
`do_sample=True`, `temperature=0.8`; the image adapter's `run` default is
`max_new_tokens=30`; and the UI's Generate action invokes the text pipeline
with `max_new_tokens=80` (leaving sampling and temperature at the adapter
defaults). -/
theorem run_keyword_defaults :
    GPT2TextAdapter.run_defaults = (60, true, (8 : Rat) / 10) ∧
    ViTGPT2CaptionAdapter.run_default_max_new_tokens = 30 ∧
    (∀ pipeOut (elL elR : String) (s : AppState) (mid : String),
      model_options_get s.selected_label = some ("text", mid) →
      s.txt_adapter = none →
      pyStrip s.txt_prompt ≠ "" →
      ∀ s2 dlgs evts, on_generate pipeOut elL elR s = some (s2, dlgs, evts) →
        Event.pipeCallText (pyStrip s.txt_prompt) 80
            GPT2TextAdapter.run_defaults.2.1
            GPT2TextAdapter.run_defaults.2.2 ∈ evts) := by
  refine ⟨rfl, rfl, ?_⟩
  intro pipeOut elL elR s mid hsel hfresh hprompt s2 dlgs evts h
  have hb : (pyStrip s.txt_prompt == "") = false := by simpa using hprompt
  have hb1 : (pyStrip (pyStrip s.txt_prompt) == "") = false := by
    rw [pyStrip_idem]
    exact hb
  cases hout : pipeOut ⟨"text-generation", mid⟩ (pyStrip s.txt_prompt) 80
      true ((8 : Rat) / 10) with
  | error msg =>
      simp [on_generate, hb, hb1, hsel, hfresh, text_adapter_load_eq,
            GPT2TextAdapter.run, GPT2TextAdapter.run_body, requires_input,
            timed, GPT2TextAdapter.run_defaults, GPT2TextAdapter.init, hout,
            Option.some.injEq, Prod.mk.injEq] at h
      obtain ⟨-, -, h3⟩ := h
      rw [← h3]
      simp [GPT2TextAdapter.run_defaults]
  | ok v =>
      simp [on_generate, hb, hb1, hsel, hfresh, text_adapter_load_eq,
            GPT2TextAdapter.run, GPT2TextAdapter.run_body, requires_input,
            timed, GPT2TextAdapter.run_defaults, GPT2TextAdapter.init, hout,
            Option.some.injEq, Prod.mk.injEq] at h
      obtain ⟨-, -, h3⟩ := h
      rw [← h3]
      simp [GPT2TextAdapter.run_defaults]

/-- Witness for C7: the concrete Generate click of `genWitnessState`
produces a pipeline invocation with `max_new_tokens=80` and the adapter's
default sampling options. -/
theorem run_keyword_defaults_witness :
    GPT2TextAdapter.run_defaults = (60, true, (8 : Rat) / 10) ∧
    ViTGPT2CaptionAdapter.run_default_max_new_tokens = 30 ∧
    Event.pipeCallText (pyStrip genWitnessState.txt_prompt) 80
        GPT2TextAdapter.run_defaults.2.1 GPT2TextAdapter.run_defaults.2.2
      ∈ ((on_generate pcWitness "0.1" "0.2" genWitnessState).getD
          (genWitnessState, [], [])).2.2 := by
  refine ⟨run_keyword_defaults.1, run_keyword_defaults.2.1, ?_⟩
  cases hA : on_generate pcWitness "0.1" "0.2" genWitnessState with
  | none => exact absurd hA (by decide)
  | some r =>
      have h := run_keyword_defaults.2.2 pcWitness "0.1" "0.2"
        genWitnessState "openai-community/gpt2" (by decide) rfl (by decide)
        r.1 r.2.1 r.2.2 (by rw [hA])
      exact h

end HIT137
